import Mathlib

/-!
# Verification of the projectkit storage and auth services

Shallow embedding of `crates/storage` (`StorageService`,
`TransactionalStorageService`) and `crates/auth` (`AuthService`, JWT helpers)
from the projectkit repository, together with theorems settling the
specification's claims about them.

Modelling conventions:
* The filesystem under the storage base directory is an association map from
  stored names to byte blobs (`Fs`); bytes are `List Nat`.
* The relational store is a list of rows per table, in insertion order; a SQL
  `SELECT ... WHERE k = v LIMIT 1` is `List.find?`, a `DELETE WHERE k = v` is a
  `List.filter`, an `INSERT` is an append.
* External calls that can fail independently of the modelled state (filesystem
  writes/removes, database statement build/execute/fetch) take an explicit
  `Bool` success flag, so that the behaviour of the code under an injected
  fault is a function of that flag.
* Wall-clock time is an explicit `now : Int` (Unix seconds) parameter.
-/

namespace ProjectKit

/-! ## Filesystem model -/

/-- Raw file content. -/
abbrev Bytes := List Nat

/-- The storage base directory: an association map `stored_name ↦ blob`. -/
abbrev Fs := List (String × Bytes)

/-- First binding for `name`, if any (the filesystem has at most one). -/
def Fs.lookup (fs : Fs) (name : String) : Option Bytes :=
  match fs with
  | [] => none
  | (n, d) :: rest => if n = name then some d else Fs.lookup rest name

/-- Remove every binding for `name` (`std::fs::remove_file`). -/
def Fs.erase (fs : Fs) (name : String) : Fs :=
  match fs with
  | [] => []
  | p :: rest => if p.1 = name then Fs.erase rest name else p :: Fs.erase rest name

/-- Create-or-truncate write (`tokio::fs::File::create` + `write_all`). -/
def Fs.insert (fs : Fs) (name : String) (d : Bytes) : Fs :=
  (name, d) :: Fs.erase fs name

/-! ## Storage data model (`crates/storage`) -/

/-- `StorageError` from `crates/storage/src/lib.rs`.  `storageError` is the
variant the spec's taxonomy calls a Persistence error. -/
inductive StorageError where
  | ioError (msg : String)
  | fileNotFound (name : String)
  | invalidPath (msg : String)
  | storageError (msg : String)
  deriving DecidableEq, Repr

/-- `FileMetadata` returned by `StorageService::store`. -/
structure FileMetadata where
  id : String
  original_name : String
  stored_name : String
  size : Nat
  mime_type : Option String
  created_at : Int
  deriving DecidableEq, Repr

/-- A row of the `files` table (`File` in `crates/storage/src/model.rs`). -/
structure FileRec where
  id : Option String
  user_id : Int
  original_name : String
  stored_name : String
  size : Int
  mime_type : Option String
  storage_path : String
  created_at : Int
  deriving DecidableEq, Repr

/-- Combined state of the two resources `TransactionalStorageService`
coordinates: the blob directory and the `files` table. -/
structure SysState where
  fs : Fs
  filesDb : List FileRec
  deriving DecidableEq, Repr

/-- The final path component (after the last `/`), as characters. -/
def fileNameChars (p : String) : List Char :=
  (p.toList.reverse.takeWhile (fun c => decide (c ≠ '/'))).reverse

/-- Extension of a file name, following `std::path::Path::extension`:
empty when there is no dot, or when the only dot is the leading one. -/
def extOfName (fname : List Char) : List Char :=
  let rev := fname.reverse
  if rev.contains '.' then
    let extRev := rev.takeWhile (fun c => decide (c ≠ '.'))
    let stemRev := rev.drop (extRev.length + 1)
    if stemRev.isEmpty then [] else extRev.reverse
  else []

/-- `Path::new(original_name).extension().and_then(to_str).unwrap_or("")`. -/
def extOf (p : String) : String :=
  String.mk (extOfName (fileNameChars p))

/-- The stored name computed by `StorageService::store`: the generated id,
optionally suffixed with the original extension. -/
def storedNameOf (freshId original_name : String) : String :=
  let extension := extOf original_name
  if extension = "" then freshId else freshId ++ "." ++ extension

/-- `StorageService::store` (`crates/storage/src/lib.rs`).  `freshId` stands
for the freshly generated UUID, `fsWriteOk` for success of the
create/write/flush sequence; on failure nothing is left behind. -/
def StorageService.store (fs : Fs) (fsWriteOk : Bool) (data : Bytes)
    (original_name : String) (mime_type : Option String) (freshId : String)
    (now : Int) : Fs × Except StorageError FileMetadata :=
  let stored_name := storedNameOf freshId original_name
  if fsWriteOk then
    (Fs.insert fs stored_name data,
     .ok { id := freshId, original_name := original_name,
           stored_name := stored_name, size := data.length,
           mime_type := mime_type, created_at := now })
  else (fs, .error (.ioError "write failed"))

/-- The fallback extensions `retrieve`/`delete` probe when the direct path
does not exist. -/
def extCandidates : List String := ["", ".jpg", ".png", ".pdf", ".txt", ".json"]

/-- The path-resolution loop shared by `StorageService::retrieve` and
`StorageService::delete`: the direct name if it exists, else the first
fallback-extension variant that exists. -/
def resolvePath (fs : Fs) (file_id : String) : Option String :=
  if (Fs.lookup fs file_id).isSome then some file_id
  else
    match extCandidates.find? (fun e => (Fs.lookup fs (file_id ++ e)).isSome) with
    | some e => some (file_id ++ e)
    | none => none

/-- `StorageService::retrieve`: resolve the path, then read the file. -/
def StorageService.retrieve (fs : Fs) (file_id : String) :
    Except StorageError Bytes :=
  match resolvePath fs file_id with
  | none => .error (.fileNotFound file_id)
  | some name =>
    match Fs.lookup fs name with
    | some d => .ok d
    | none => .error (.ioError "open failed")

/-- `StorageService::delete`: resolve the path, then `remove_file`, whose
success is modelled by `fsRemoveOk`. -/
def StorageService.delete (fs : Fs) (fsRemoveOk : Bool) (file_id : String) :
    Fs × Except StorageError Unit :=
  match resolvePath fs file_id with
  | none => (fs, .error (.fileNotFound file_id))
  | some name =>
    if fsRemoveOk then (Fs.erase fs name, .ok ())
    else (fs, .error (.ioError "remove failed"))

/-! ## TransactionalStorageService (`crates/storage/src/service.rs`) -/

/-- `TransactionalStorageService::get_file_by_id`: a `SELECT ... WHERE id = ?
LIMIT 1` over the `files` table; `fetchOk` models the database round-trip. -/
def get_file_by_id (db : List FileRec) (fetchOk : Bool) (file_id : String) :
    Except StorageError (Option FileRec) :=
  if fetchOk then .ok (db.find? (fun f => decide (f.id = some file_id)))
  else .error (.storageError "Database error")

/-- Success flags for the external calls `store_with_metadata` makes. -/
structure StoreFaults where
  fsWriteOk : Bool
  insertBuildOk : Bool
  insertExecOk : Bool
  compRemoveOk : Bool
  deriving DecidableEq, Repr

/-- `TransactionalStorageService::store_with_metadata`: write the blob, then
insert the metadata row; on a failed insert execute, attempt a compensating
delete of the blob (its own result is discarded by the code) and surface a
Persistence error. -/
def store_with_metadata (st : SysState) (flt : StoreFaults) (data : Bytes)
    (original_name : String) (user_id : Int) (mime_type : Option String)
    (freshId : String) (basePath : String) (now : Int) :
    SysState × Except StorageError FileRec :=
  match StorageService.store st.fs flt.fsWriteOk data original_name mime_type freshId now with
  | (fs1, .error e) => ({ st with fs := fs1 }, .error e)
  | (fs1, .ok fm) =>
    let file : FileRec :=
      { id := some fm.id, user_id := user_id, original_name := fm.original_name,
        stored_name := fm.stored_name, size := (fm.size : Int),
        mime_type := mime_type, storage_path := basePath, created_at := now }
    if flt.insertBuildOk then
      if flt.insertExecOk then
        ({ fs := fs1, filesDb := st.filesDb ++ [file] }, .ok file)
      else
        let compensated := StorageService.delete fs1 flt.compRemoveOk fm.stored_name
        ({ fs := compensated.1, filesDb := st.filesDb },
         .error (.storageError "Database insert failed"))
    else
      ({ fs := fs1, filesDb := st.filesDb },
       .error (.storageError "Query build error"))

/-- Success flags for the external calls `delete_with_metadata` makes. -/
structure DeleteFaults where
  fetchOk : Bool
  dbDeleteOk : Bool
  fsRemoveOk : Bool
  deriving DecidableEq, Repr

/-- `TransactionalStorageService::delete_with_metadata`: fetch the row, check
ownership, delete the row, then delete the blob; a blob-delete failure is
propagated with `?`. -/
def delete_with_metadata (st : SysState) (flt : DeleteFaults)
    (file_id : String) (user_id : Int) : SysState × Except StorageError Unit :=
  match get_file_by_id st.filesDb flt.fetchOk file_id with
  | .error e => (st, .error e)
  | .ok none => (st, .error (.fileNotFound file_id))
  | .ok (some file) =>
    if file.user_id ≠ user_id then
      (st, .error (.storageError "Access denied: file belongs to another user"))
    else if flt.dbDeleteOk then
      let db1 := st.filesDb.filter (fun f => decide (f.id ≠ some file_id))
      match StorageService.delete st.fs flt.fsRemoveOk file.stored_name with
      | (fs1, .ok _) => ({ fs := fs1, filesDb := db1 }, .ok ())
      | (fs1, .error e) => ({ fs := fs1, filesDb := db1 }, .error e)
    else (st, .error (.storageError "Database delete failed"))

/-- `TransactionalStorageService::retrieve_with_permission`: fetch the row,
check ownership, then read the blob.  Performs no writes to either resource,
hence returns no state. -/
def retrieve_with_permission (st : SysState) (fetchOk : Bool)
    (file_id : String) (user_id : Int) : Except StorageError Bytes :=
  match get_file_by_id st.filesDb fetchOk file_id with
  | .error e => .error e
  | .ok none => .error (.fileNotFound file_id)
  | .ok (some file) =>
    if file.user_id ≠ user_id then
      .error (.storageError "Access denied: file belongs to another user")
    else StorageService.retrieve st.fs file.stored_name

/-! ## Basic filesystem lemmas -/

theorem Fs.lookup_erase (fs : Fs) (name : String) :
    Fs.lookup (Fs.erase fs name) name = none := by
  induction fs with
  | nil => rfl
  | cons p rest ih =>
    by_cases h : p.1 = name
    · simpa [Fs.erase, Fs.lookup, h] using ih
    · simpa [Fs.erase, Fs.lookup, h] using ih

theorem Fs.lookup_insert_self (fs : Fs) (name : String) (d : Bytes) :
    Fs.lookup (Fs.insert fs name d) name = some d := by
  simp [Fs.insert, Fs.lookup]

theorem Fs.lookup_erase_of_ne (fs : Fs) (name n : String) (h : name ≠ n) :
    Fs.lookup (Fs.erase fs name) n = Fs.lookup fs n := by
  induction fs with
  | nil => rfl
  | cons p rest ih =>
    by_cases hp : p.1 = name
    · have hn : p.1 ≠ n := by rw [hp]; exact h
      simp [Fs.erase, hp, Fs.lookup, hn, h, ih]
    · by_cases hq : p.1 = n
      · simp [Fs.erase, hp, hq, Fs.lookup, Ne.symm h]
      · simp [Fs.erase, hp, hq, Fs.lookup, ih]

theorem Fs.lookup_insert_of_ne (fs : Fs) (name n : String) (d : Bytes)
    (h : name ≠ n) : Fs.lookup (Fs.insert fs name d) n = Fs.lookup fs n := by
  simp only [Fs.insert, Fs.lookup, if_neg h]
  exact Fs.lookup_erase_of_ne fs name n h

/-- A name that was just written resolves directly to itself. -/
theorem resolvePath_insert_self (fs : Fs) (name : String) (d : Bytes) :
    resolvePath (Fs.insert fs name d) name = some name := by
  simp [resolvePath, Fs.lookup_insert_self]

/-! ## Claim C1 -/

/-- C1 (amended): in a `store_with_metadata` call where the filesystem write
succeeds, the metadata insert statement builds but its execution fails, and
the compensating filesystem delete itself succeeds, the metadata table is
left unchanged, the just-written blob is gone, and the call returns the
Persistence error for the failed insert.  (When the compensating delete also
fails, the code discards that failure and the blob remains; see the
counterexample theorem.) -/
theorem store_with_metadata_compensating_delete
    (st : SysState) (flt : StoreFaults) (data : Bytes) (original_name : String)
    (user_id : Int) (mime_type : Option String) (freshId basePath : String)
    (now : Int) (hW : flt.fsWriteOk = true) (hB : flt.insertBuildOk = true)
    (hE : flt.insertExecOk = false) (hC : flt.compRemoveOk = true) :
    (store_with_metadata st flt data original_name user_id mime_type freshId
        basePath now).1.filesDb = st.filesDb ∧
    Fs.lookup (store_with_metadata st flt data original_name user_id mime_type
        freshId basePath now).1.fs (storedNameOf freshId original_name) = none ∧
    (store_with_metadata st flt data original_name user_id mime_type freshId
        basePath now).2 = .error (.storageError "Database insert failed") := by
  simp [store_with_metadata, StorageService.store, hW, hB, hE, hC,
    StorageService.delete, resolvePath_insert_self, Fs.lookup_erase]

/-- Witness for C1's theorem at a concrete input. -/
theorem store_with_metadata_compensating_delete_witness :
    (store_with_metadata ⟨[], []⟩ ⟨true, true, false, true⟩ [1, 2] "a.txt" 7
        none "id1" "base" 0).1.filesDb = (⟨[], []⟩ : SysState).filesDb ∧
    Fs.lookup (store_with_metadata ⟨[], []⟩ ⟨true, true, false, true⟩ [1, 2]
        "a.txt" 7 none "id1" "base" 0).1.fs (storedNameOf "id1" "a.txt") = none ∧
    (store_with_metadata ⟨[], []⟩ ⟨true, true, false, true⟩ [1, 2] "a.txt" 7
        none "id1" "base" 0).2 = .error (.storageError "Database insert failed") :=
  store_with_metadata_compensating_delete ⟨[], []⟩ ⟨true, true, false, true⟩
    [1, 2] "a.txt" 7 none "id1" "base" 0 rfl rfl rfl rfl

/-- C1 counterexample: with the filesystem write succeeding and the metadata
insert failing — exactly the scenario of the claim — a failure of the
compensating `remove_file` is discarded (`let _ = self.storage.delete(...)`),
so the just-written blob is still present after the call, contradicting
"the just-written blob is deleted ... neither the blob nor the metadata
record exists". -/
theorem store_with_metadata_orphan_on_failed_compensation :
    Fs.lookup (store_with_metadata ⟨[], []⟩ ⟨true, true, false, false⟩ [1, 2]
        "a.txt" 7 none "id1" "base" 0).1.fs "id1.txt" = some [1, 2] ∧
    (store_with_metadata ⟨[], []⟩ ⟨true, true, false, false⟩ [1, 2] "a.txt" 7
        none "id1" "base" 0).2 = .error (.storageError "Database insert failed") :=
  ⟨rfl, rfl⟩

/-! ## Claim C2 -/

/-- C2 (amended): when ownership is verified and the metadata row is
successfully deleted, a failure of the subsequent filesystem blob deletion is
NOT swallowed: `delete_with_metadata` propagates it (`?` on
`self.storage.delete`), so the call returns the filesystem error.  The
metadata row stays deleted, so the file is gone from the API's view even
though the call reports an error. -/
theorem delete_with_metadata_surfaces_blob_delete_failure
    (st : SysState) (flt : DeleteFaults) (file_id : String) (user_id : Int)
    (file : FileRec) (hFetch : flt.fetchOk = true)
    (hFind : st.filesDb.find? (fun f => decide (f.id = some file_id)) = some file)
    (hOwn : file.user_id = user_id) (hDb : flt.dbDeleteOk = true)
    (hFs : flt.fsRemoveOk = false)
    (hBlob : (Fs.lookup st.fs file.stored_name).isSome = true) :
    delete_with_metadata st flt file_id user_id
      = ({ fs := st.fs,
           filesDb := st.filesDb.filter (fun f => decide (f.id ≠ some file_id)) },
         .error (.ioError "remove failed")) := by
  have hres : resolvePath st.fs file.stored_name = some file.stored_name := by
    simp [resolvePath, hBlob]
  simp [delete_with_metadata, get_file_by_id, hFetch, hFind, hOwn, hDb,
    StorageService.delete, hres, hFs]

/-- Witness for C2's theorem at a concrete input. -/
theorem delete_with_metadata_surfaces_blob_delete_failure_witness :
    delete_with_metadata
        ⟨[("f1.txt", [9])], [⟨some "f1", 7, "f.txt", "f1.txt", 1, none, "base", 0⟩]⟩
        ⟨true, true, false⟩ "f1" 7
      = ({ fs := [("f1.txt", [9])],
           filesDb := [(⟨some "f1", 7, "f.txt", "f1.txt", 1, none, "base", 0⟩ : FileRec)].filter
             (fun f => decide (f.id ≠ some "f1")) },
         .error (.ioError "remove failed")) :=
  delete_with_metadata_surfaces_blob_delete_failure
    ⟨[("f1.txt", [9])], [⟨some "f1", 7, "f.txt", "f1.txt", 1, none, "base", 0⟩]⟩
    ⟨true, true, false⟩ "f1" 7 ⟨some "f1", 7, "f.txt", "f1.txt", 1, none, "base", 0⟩
    rfl rfl rfl rfl rfl rfl

/-- C2 counterexample: a delete in which ownership is verified and the
metadata row is deleted, but the blob deletion fails, returns an error —
not `Ok` as the claim states. -/
theorem delete_with_metadata_not_ok_on_blob_delete_failure :
    (delete_with_metadata
        ⟨[("f1.txt", [9])], [⟨some "f1", 7, "f.txt", "f1.txt", 1, none, "base", 0⟩]⟩
        ⟨true, true, false⟩ "f1" 7).1.filesDb = [] ∧
    (delete_with_metadata
        ⟨[("f1.txt", [9])], [⟨some "f1", 7, "f.txt", "f1.txt", 1, none, "base", 0⟩]⟩
        ⟨true, true, false⟩ "f1" 7).2 ≠ .ok () := by
  constructor
  · rfl
  · intro hcontra
    rw [show (delete_with_metadata
        ⟨[("f1.txt", [9])], [⟨some "f1", 7, "f.txt", "f1.txt", 1, none, "base", 0⟩]⟩
        ⟨true, true, false⟩ "f1" 7).2 = .error (.ioError "remove failed") from rfl] at hcontra
    exact Except.noConfusion hcontra

/-! ## Claim C7 -/

/-- C7: for every byte payload (including the empty one) and original name,
retrieving by the id returned from a successful store, with the requester
equal to the owner, returns exactly the stored bytes.  `hFresh` expresses
that the generated UUID does not collide with an existing row. -/
theorem store_retrieve_roundtrip
    (st : SysState) (data : Bytes) (original_name : String) (owner : Int)
    (mime_type : Option String) (freshId basePath : String) (now : Int)
    (hFresh : st.filesDb.find? (fun f => decide (f.id = some freshId)) = none) :
    ∃ file : FileRec,
      (store_with_metadata st ⟨true, true, true, true⟩ data original_name owner
          mime_type freshId basePath now).2 = .ok file ∧
      file.id = some freshId ∧ file.user_id = owner ∧
      retrieve_with_permission
          (store_with_metadata st ⟨true, true, true, true⟩ data original_name
            owner mime_type freshId basePath now).1 true freshId owner
        = .ok data := by
  refine ⟨_, rfl, rfl, rfl, ?_⟩
  simp [retrieve_with_permission, get_file_by_id, store_with_metadata,
    StorageService.store, List.find?_append, hFresh, StorageService.retrieve,
    resolvePath_insert_self, Fs.lookup_insert_self]

/-- Witness for C7's theorem at a concrete input (empty payload, no
extension). -/
theorem store_retrieve_roundtrip_witness :
    ∃ file : FileRec,
      (store_with_metadata ⟨[], []⟩ ⟨true, true, true, true⟩ [] "noext" 3 none
          "idA" "base" 0).2 = .ok file ∧
      file.id = some "idA" ∧ file.user_id = 3 ∧
      retrieve_with_permission
          (store_with_metadata ⟨[], []⟩ ⟨true, true, true, true⟩ [] "noext" 3
            none "idA" "base" 0).1 true "idA" 3
        = .ok [] :=
  store_retrieve_roundtrip ⟨[], []⟩ [] "noext" 3 none "idA" "base" 0 rfl

/-! ## Claim C8 -/

/-- C8: for a stored file and a requester different from the owner, both
`retrieve_with_permission` and `delete_with_metadata` return the
access-denied error (the spec's Forbidden).  The filesystem component `fs`
is universally quantified and returned unchanged, so neither operation reads
or modifies the filesystem, and the metadata table is also unchanged. -/
theorem nonowner_retrieve_delete_forbidden_frame
    (fs : Fs) (db : List FileRec) (file_id : String) (requester : Int)
    (file : FileRec) (flt : DeleteFaults)
    (hFind : db.find? (fun f => decide (f.id = some file_id)) = some file)
    (hOwn : file.user_id ≠ requester) (hFetch : flt.fetchOk = true) :
    retrieve_with_permission ⟨fs, db⟩ true file_id requester
        = .error (.storageError "Access denied: file belongs to another user") ∧
    delete_with_metadata ⟨fs, db⟩ flt file_id requester
        = (⟨fs, db⟩,
           .error (.storageError "Access denied: file belongs to another user")) := by
  constructor
  · simp [retrieve_with_permission, get_file_by_id, hFind, hOwn]
  · simp [delete_with_metadata, get_file_by_id, hFetch, hFind, hOwn]

/-- Witness for C8's theorem at a concrete input. -/
theorem nonowner_retrieve_delete_forbidden_frame_witness :
    retrieve_with_permission
        ⟨[("f1.txt", [9])], [⟨some "f1", 7, "f.txt", "f1.txt", 1, none, "base", 0⟩]⟩
        true "f1" 8
      = .error (.storageError "Access denied: file belongs to another user") ∧
    delete_with_metadata
        ⟨[("f1.txt", [9])], [⟨some "f1", 7, "f.txt", "f1.txt", 1, none, "base", 0⟩]⟩
        ⟨true, true, true⟩ "f1" 8
      = (⟨[("f1.txt", [9])], [⟨some "f1", 7, "f.txt", "f1.txt", 1, none, "base", 0⟩]⟩,
         .error (.storageError "Access denied: file belongs to another user")) :=
  nonowner_retrieve_delete_forbidden_frame [("f1.txt", [9])]
    [⟨some "f1", 7, "f.txt", "f1.txt", 1, none, "base", 0⟩] "f1" 8
    ⟨some "f1", 7, "f.txt", "f1.txt", 1, none, "base", 0⟩ ⟨true, true, true⟩
    rfl (by decide) rfl

/-! ## Auth data model (`crates/auth`)

`crates/auth/src/model.rs` as captured lacks the `Role` enum and the `role`
field of `User`, although `service.rs`, `jwt.rs` and the `lib.rs` re-export
all use them; they are modelled from the spec below. -/

/-- Modelled from the spec: the `Role` enum (`role: enum{User, Service}`),
whose declaration is missing from the captured `crates/auth/src/model.rs`
but is used throughout `service.rs`/`jwt.rs` and re-exported by `lib.rs`. -/
inductive Role where
  | user
  | service
  deriving DecidableEq, Repr

/-- `AuthError` from `crates/auth/src/error.rs`. -/
inductive AuthError where
  | hashingError (msg : String)
  | verificationError
  | invalidPassword
  | tokenGenerationError (msg : String)
  | tokenValidationError (msg : String)
  | tokenExpired
  | invalidToken
  deriving DecidableEq, Repr

/-- The `User` row (`crates/auth/src/model.rs`; the `role` field is modelled
from the spec, see `Role`). -/
structure UserRec where
  id : Option Int
  email : String
  password_hash : String
  role : Role
  created_at : Int
  updated_at : Int
  deriving DecidableEq, Repr

/-- JWT claims (`Claims` in `crates/auth/src/jwt.rs`). -/
structure Claims where
  sub : String
  role : Role
  iat : Int
  exp : Int
  deriving DecidableEq, Repr

/-- Model of token strings: a well-formed JWT carrying `claims` and signed
(HS256) with `secret`, or any other string.  `decode` with a given secret
succeeds exactly on `signed c secret`. -/
inductive Token where
  | signed (claims : Claims) (secret : String)
  | malformed (s : String)
  deriving DecidableEq, Repr

/-- The `Session` row (`crates/auth/src/model.rs`); its `token` column holds
the token string. -/
structure SessionRec where
  id : Option Int
  user_id : Int
  token : Token
  expires_at : Int
  created_at : Int
  deriving DecidableEq, Repr

/-- State the `AuthService` operates on: the `users` and `sessions` tables. -/
structure AuthState where
  users : List UserRec
  sessions : List SessionRec
  deriving DecidableEq, Repr

/-! ## JWT helpers (`crates/auth/src/jwt.rs`) -/

/-- `Claims::new`: subject and role, issued now, expiring `ttl` later. -/
def Claims.new (subject : String) (role : Role) (ttl now : Int) : Claims :=
  { sub := subject, role := role, iat := now, exp := now + ttl }

/-- `Claims::is_expired`: `Utc::now().timestamp() > self.exp`. -/
def Claims.is_expired (c : Claims) (now : Int) : Bool :=
  decide (c.exp < now)

/-- The default `exp` leeway of the `jsonwebtoken` crate's
`Validation::default()`, applied during `decode`. -/
def jwtLeeway : Int := 60

/-- `generate_token`: encode the claims with HS256 under `secret` (encoding
a serialisable struct cannot fail, so this always succeeds). -/
def generate_token (user_id : String) (role : Role) (secret : String)
    (expires_in_seconds now : Int) : Except AuthError Token :=
  .ok (.signed (Claims.new user_id role expires_in_seconds now) secret)

/-- `validate_token`: `decode` with `Validation::default()` (signature check
plus `exp` check with 60 s leeway), then the explicit `is_expired` check. -/
def validate_token (tok : Token) (secret : String) (now : Int) :
    Except AuthError Claims :=
  match tok with
  | .malformed _ => .error (.tokenValidationError "InvalidToken")
  | .signed c s =>
    if s ≠ secret then .error (.tokenValidationError "InvalidSignature")
    else if c.exp < now - jwtLeeway then
      .error (.tokenValidationError "ExpiredSignature")
    else if c.is_expired now then .error .tokenExpired
    else .ok c

/-- Rust's `str::parse::<i64>`: optional sign, decimal digits, i64 range. -/
def parseI64 (s : String) : Option Int :=
  let cs := s.toList
  let signed : Int × List Char :=
    match cs with
    | '+' :: rest => (1, rest)
    | '-' :: rest => (-1, rest)
    | _ => (1, cs)
  if signed.2.isEmpty then none
  else if signed.2.all (fun c => c.isDigit) then
    let n : Nat := signed.2.foldl (fun a c => a * 10 + (c.toNat - '0'.toNat)) 0
    let v : Int := signed.1 * n
    if -(2 ^ 63) ≤ v ∧ v ≤ 2 ^ 63 - 1 then some v else none
  else none

/-! ## AuthService (`crates/auth/src/service.rs`) -/

/-- `AuthService::find_user_by_id`: `SELECT ... WHERE id = ? LIMIT 1`;
`fetchOk` models the database round-trip. -/
def find_user_by_id (users : List UserRec) (fetchOk : Bool) (uid : Int) :
    Except AuthError (Option UserRec) :=
  if fetchOk then .ok (users.find? (fun u => decide (u.id = some uid)))
  else .error (.tokenValidationError "Database error")

/-- `AuthService::find_user_by_email`: `SELECT ... WHERE email = ? LIMIT 1`. -/
def find_user_by_email (users : List UserRec) (fetchOk : Bool) (email : String) :
    Except AuthError (Option UserRec) :=
  if fetchOk then .ok (users.find? (fun u => decide (u.email = email)))
  else .error (.tokenValidationError "Database error")

/-- Success flags for the external calls `login` makes. -/
structure LoginFaults where
  userFetchOk : Bool
  sessionBuildOk : Bool
  sessionExecOk : Bool
  deriving DecidableEq, Repr

/-- `AuthService::login`: look up by email (absent ⇒ `InvalidPassword`),
verify the password (mismatch ⇒ `InvalidPassword`), mint a token, then
best-effort insert a `Session` row — `if let Ok(sql) = build { let _ =
execute }`, both failures swallowed.  `verify` abstracts
`password::verify_password` (Argon2). -/
def login (st : AuthState) (flt : LoginFaults)
    (verify : String → String → Except AuthError Bool)
    (email password secret : String) (ttl now : Int) :
    AuthState × Except AuthError (Token × UserRec) :=
  match find_user_by_email st.users flt.userFetchOk email with
  | .error e => (st, .error e)
  | .ok none => (st, .error .invalidPassword)
  | .ok (some user) =>
    match verify password user.password_hash with
    | .error e => (st, .error e)
    | .ok false => (st, .error .invalidPassword)
    | .ok true =>
      match user.id with
      | none => (st, .error (.tokenGenerationError "User has no ID"))
      | some uid =>
        match generate_token (toString uid) user.role secret ttl now with
        | .error e => (st, .error e)
        | .ok tok =>
          let session : SessionRec :=
            { id := none, user_id := uid, token := tok,
              expires_at := now + ttl, created_at := now }
          if flt.sessionBuildOk && flt.sessionExecOk then
            ({ st with sessions := st.sessions ++ [session] }, .ok (tok, user))
          else (st, .ok (tok, user))

/-- `AuthService::validate`: validate the JWT, parse the subject as an
integer id (failure ⇒ `InvalidToken`), re-fetch the user (absent ⇒
`InvalidToken`), and reject if the live role differs from the token's. -/
def validate (users : List UserRec) (fetchOk : Bool) (secret : String)
    (now : Int) (tok : Token) : Except AuthError UserRec :=
  match validate_token tok secret now with
  | .error e => .error e
  | .ok claims =>
    match parseI64 claims.sub with
    | none => .error .invalidToken
    | some uid =>
      match find_user_by_id users fetchOk uid with
      | .error e => .error e
      | .ok none => .error .invalidToken
      | .ok (some user) =>
        if user.role ≠ claims.role then
          .error (.tokenValidationError "User role has changed, please login again")
        else .ok user

/-- `AuthService::logout`: build and execute a `DELETE FROM sessions WHERE
token = ?`; the token argument is never cryptographically validated. -/
def logout (sessions : List SessionRec) (buildOk execOk : Bool) (tok : Token) :
    List SessionRec × Except AuthError Unit :=
  if buildOk then
    if execOk then (sessions.filter (fun s => decide (s.token ≠ tok)), .ok ())
    else (sessions, .error (.tokenValidationError "Database error"))
  else (sessions, .error (.tokenValidationError "Query build error"))

/-! ## Auth lemmas -/

/-- A token signed with the right secret and not yet expired decodes to its
claims: the 60 s-leeway `exp` check and the strict `is_expired` check both
pass. -/
theorem validate_token_ok_of_fresh (c : Claims) (secret : String) (now : Int)
    (hExp : now ≤ c.exp) :
    validate_token (.signed c secret) secret now = .ok c := by
  have h1 : ¬ (c.exp < now - jwtLeeway) := by simp only [jwtLeeway]; omega
  have h2 : c.is_expired now = false := by
    simp only [Claims.is_expired, decide_eq_false_iff_not]
    omega
  simp [validate_token, h1, h2]

/-! ## Claim C3 -/

/-- C3: for a token whose signature verifies and whose expiry has not
passed, `validate` re-fetches the referenced user and (i) returns the
role-changed error (the spec's RoleChanged) whenever the live role differs
from the role embedded in the token, and (ii) can only succeed by returning
exactly the freshly fetched user, whose role then equals the token's —
the live-role re-fetch decides every call. -/
theorem validate_refetches_and_rejects_role_change
    (users : List UserRec) (secret : String) (now : Int) (c : Claims)
    (uid : Int) (u : UserRec) (hExp : now ≤ c.exp)
    (hSub : parseI64 c.sub = some uid)
    (hFind : users.find? (fun x => decide (x.id = some uid)) = some u) :
    (u.role ≠ c.role →
      validate users true secret now (.signed c secret)
        = .error (.tokenValidationError "User role has changed, please login again")) ∧
    (∀ u' : UserRec, validate users true secret now (.signed c secret) = .ok u' →
      u' = u ∧ u'.role = c.role) := by
  have hdec := validate_token_ok_of_fresh c secret now hExp
  constructor
  · intro hrole
    simp [validate, hdec, hSub, find_user_by_id, hFind, hrole]
  · intro u' hval
    simp only [validate, hdec, hSub, find_user_by_id, if_true, hFind] at hval
    by_cases hrole : u.role = c.role
    · simp [hrole] at hval
      exact ⟨hval.symm, hval ▸ hrole⟩
    · simp [hrole] at hval

/-- Witness for C3's theorem at a concrete input: a user promoted to
`service` after a `user`-role token was minted is rejected. -/
theorem validate_refetches_and_rejects_role_change_witness :
    ((⟨some 5, "a@x", "h", .service, 0, 0⟩ : UserRec).role
        ≠ (⟨"5", .user, 0, 100⟩ : Claims).role →
      validate [⟨some 5, "a@x", "h", .service, 0, 0⟩] true "sec" 50
          (.signed ⟨"5", .user, 0, 100⟩ "sec")
        = .error (.tokenValidationError "User role has changed, please login again")) ∧
    (∀ u' : UserRec,
      validate [⟨some 5, "a@x", "h", .service, 0, 0⟩] true "sec" 50
          (.signed ⟨"5", .user, 0, 100⟩ "sec") = .ok u' →
      u' = ⟨some 5, "a@x", "h", .service, 0, 0⟩ ∧
      u'.role = (⟨"5", .user, 0, 100⟩ : Claims).role) :=
  validate_refetches_and_rejects_role_change
    [⟨some 5, "a@x", "h", .service, 0, 0⟩] "sec" 50 ⟨"5", .user, 0, 100⟩ 5
    ⟨some 5, "a@x", "h", .service, 0, 0⟩ (by decide) (by decide) rfl

/-! ## Claim C4 -/

/-- C4: a login against an unregistered email and a login whose password
verification returns false produce the very same error value,
`AuthError.invalidPassword` (surfaced as InvalidCredentials), with the
state unchanged — no user-existence oracle. -/
theorem login_invalid_credentials_indistinguishable
    (st : AuthState) (flt : LoginFaults)
    (verify : String → String → Except AuthError Bool)
    (email password secret : String) (ttl now : Int)
    (hFetch : flt.userFetchOk = true) :
    (st.users.find? (fun u => decide (u.email = email)) = none →
      login st flt verify email password secret ttl now
        = (st, .error .invalidPassword)) ∧
    (∀ u : UserRec, st.users.find? (fun x => decide (x.email = email)) = some u →
      verify password u.password_hash = .ok false →
      login st flt verify email password secret ttl now
        = (st, .error .invalidPassword)) := by
  constructor
  · intro hnone
    simp [login, find_user_by_email, hFetch, hnone]
  · intro u hu hv
    simp [login, find_user_by_email, hFetch, hu, hv]

/-- Witness for C4's theorem: both the absent-account case and the
wrong-password case at concrete inputs. -/
theorem login_invalid_credentials_indistinguishable_witness :
    login ⟨[], []⟩ ⟨true, true, true⟩ (fun _ _ => .ok false) "a@x" "pw" "sec" 3600 0
      = (⟨[], []⟩, .error .invalidPassword) ∧
    login ⟨[⟨some 1, "a@x", "h", .user, 0, 0⟩], []⟩ ⟨true, true, true⟩
        (fun _ _ => .ok false) "a@x" "pw" "sec" 3600 0
      = (⟨[⟨some 1, "a@x", "h", .user, 0, 0⟩], []⟩, .error .invalidPassword) :=
  ⟨(login_invalid_credentials_indistinguishable ⟨[], []⟩ ⟨true, true, true⟩
      (fun _ _ => .ok false) "a@x" "pw" "sec" 3600 0 rfl).1 rfl,
   (login_invalid_credentials_indistinguishable
      ⟨[⟨some 1, "a@x", "h", .user, 0, 0⟩], []⟩ ⟨true, true, true⟩
      (fun _ _ => .ok false) "a@x" "pw" "sec" 3600 0 rfl).2
      ⟨some 1, "a@x", "h", .user, 0, 0⟩ rfl rfl⟩

/-! ## Claim C5 -/

/-- C5: a token whose embedded expiry is in the past always fails
`validate_token`, even with the signature verifying against the current
secret: within the decoder's 60 s leeway the explicit `is_expired` check
reports `TokenExpired`, beyond it the decoder itself rejects. -/
theorem validate_token_rejects_expired (c : Claims) (secret : String)
    (now : Int) (hExp : c.exp < now) :
    validate_token (.signed c secret) secret now
      = .error (if c.exp < now - jwtLeeway
          then .tokenValidationError "ExpiredSignature" else .tokenExpired) := by
  by_cases h : c.exp < now - jwtLeeway
  · simp [validate_token, h]
  · have h2 : c.is_expired now = true := by
      simp only [Claims.is_expired, decide_eq_true_eq]
      omega
    simp [validate_token, h, h2]

/-- Witness for C5's theorem at a concrete input (expired 10 s ago, inside
the decoder leeway, rejected by the explicit check). -/
theorem validate_token_rejects_expired_witness :
    validate_token (.signed ⟨"1", .user, 0, 10⟩ "s") "s" 20
      = .error AuthError.tokenExpired :=
  validate_token_rejects_expired ⟨"1", .user, 0, 10⟩ "s" 20 (by decide)

/-! ## Claim C6 -/

/-- C6: once the credential check succeeds, `login` returns the minted token
and the user for every combination of session-insert build/execute outcomes;
when the best-effort session write fails, the state is simply left
unchanged. -/
theorem login_swallows_session_write_failure
    (st : AuthState) (verify : String → String → Except AuthError Bool)
    (email password secret : String) (ttl now : Int) (u : UserRec) (uid : Int)
    (bOk eOk : Bool)
    (hFind : st.users.find? (fun x => decide (x.email = email)) = some u)
    (hVerify : verify password u.password_hash = .ok true)
    (hId : u.id = some uid) :
    (login st ⟨true, bOk, eOk⟩ verify email password secret ttl now).2
      = .ok (.signed (Claims.new (toString uid) u.role ttl now) secret, u) ∧
    ((bOk && eOk) = false →
      (login st ⟨true, bOk, eOk⟩ verify email password secret ttl now).1 = st) := by
  constructor
  · by_cases hS : (bOk && eOk) = true <;>
      simp [login, find_user_by_email, hFind, hVerify, hId, generate_token, hS]
  · intro hS
    simp [login, find_user_by_email, hFind, hVerify, hId, generate_token, hS]

/-- Witness for C6's theorem at a concrete input with both session-write
steps failing. -/
theorem login_swallows_session_write_failure_witness :
    (login ⟨[⟨some 1, "a@x", "h", .user, 0, 0⟩], []⟩ ⟨true, false, false⟩
        (fun _ _ => .ok true) "a@x" "pw" "sec" 3600 0).2
      = .ok (.signed (Claims.new (toString (1 : Int))
          (⟨some 1, "a@x", "h", .user, 0, 0⟩ : UserRec).role 3600 0) "sec",
          ⟨some 1, "a@x", "h", .user, 0, 0⟩) ∧
    ((false && false) = false →
      (login ⟨[⟨some 1, "a@x", "h", .user, 0, 0⟩], []⟩ ⟨true, false, false⟩
          (fun _ _ => .ok true) "a@x" "pw" "sec" 3600 0).1
        = ⟨[⟨some 1, "a@x", "h", .user, 0, 0⟩], []⟩) :=
  login_swallows_session_write_failure ⟨[⟨some 1, "a@x", "h", .user, 0, 0⟩], []⟩
    (fun _ _ => .ok true) "a@x" "pw" "sec" 3600 0
    ⟨some 1, "a@x", "h", .user, 0, 0⟩ 1 false false rfl rfl rfl

/-! ## Claim C9 -/

/-- C9: a token that passes signature and expiry checks but whose subject
fails to parse as an integer id, or refers to no existing user row, makes
`validate` return `InvalidToken`; a token for a since-deleted user never
validates. -/
theorem validate_rejects_bad_subject_or_missing_user
    (users : List UserRec) (secret : String) (now : Int) (c : Claims)
    (hExp : now ≤ c.exp) :
    (parseI64 c.sub = none →
      validate users true secret now (.signed c secret) = .error .invalidToken) ∧
    (∀ uid : Int, parseI64 c.sub = some uid →
      users.find? (fun x => decide (x.id = some uid)) = none →
      validate users true secret now (.signed c secret) = .error .invalidToken) := by
  have hdec := validate_token_ok_of_fresh c secret now hExp
  constructor
  · intro hparse
    simp [validate, hdec, hparse]
  · intro uid hparse hnone
    simp [validate, hdec, hparse, find_user_by_id, hnone]

/-- Witness for C9's theorem: a non-numeric subject and a subject naming a
deleted user, both at concrete inputs. -/
theorem validate_rejects_bad_subject_or_missing_user_witness :
    (parseI64 (⟨"abc", .user, 0, 100⟩ : Claims).sub = none →
      validate [] true "sec" 50 (.signed ⟨"abc", .user, 0, 100⟩ "sec")
        = .error .invalidToken) ∧
    (∀ uid : Int, parseI64 (⟨"abc", .user, 0, 100⟩ : Claims).sub = some uid →
      ([] : List UserRec).find? (fun x => decide (x.id = some uid)) = none →
      validate [] true "sec" 50 (.signed ⟨"abc", .user, 0, 100⟩ "sec")
        = .error .invalidToken) :=
  validate_rejects_bad_subject_or_missing_user [] "sec" 50 ⟨"abc", .user, 0, 100⟩
    (by decide)

/-! ## Claim C10 -/

/-- C10: `logout` performs no cryptographic validation of its argument: for
every token value, whenever the delete statement builds and executes it
returns `Ok`, deleting exactly the sessions whose `token` column matches —
and still returns `Ok` when zero rows match, leaving the table unchanged. -/
theorem logout_no_token_validation (sessions : List SessionRec) (tok : Token) :
    logout sessions true true tok
      = (sessions.filter (fun s => decide (s.token ≠ tok)), .ok ()) ∧
    ((∀ s ∈ sessions, s.token ≠ tok) →
      logout sessions true true tok = (sessions, .ok ())) := by
  constructor
  · rfl
  · intro h
    simp only [logout, if_true]
    rw [List.filter_eq_self.mpr (fun s hs => by simpa using h s hs)]

/-- Witness for C10's theorem: a malformed, never-issued token against a
table holding an unrelated session still logs out with `Ok` and deletes
zero rows. -/
theorem logout_no_token_validation_witness :
    logout [⟨some 1, 5, .signed ⟨"5", .user, 0, 100⟩ "sec", 100, 0⟩] true true
        (.malformed "garbage")
      = ([⟨some 1, 5, .signed ⟨"5", .user, 0, 100⟩ "sec", 100, 0⟩].filter
          (fun s => decide (s.token ≠ .malformed "garbage")), .ok ()) ∧
    ((∀ s ∈ [(⟨some 1, 5, .signed ⟨"5", .user, 0, 100⟩ "sec", 100, 0⟩ : SessionRec)],
        s.token ≠ .malformed "garbage") →
      logout [⟨some 1, 5, .signed ⟨"5", .user, 0, 100⟩ "sec", 100, 0⟩] true true
          (.malformed "garbage")
        = ([⟨some 1, 5, .signed ⟨"5", .user, 0, 100⟩ "sec", 100, 0⟩], .ok ())) :=
  logout_no_token_validation
    [⟨some 1, 5, .signed ⟨"5", .user, 0, 100⟩ "sec", 100, 0⟩] (.malformed "garbage")

end ProjectKit
